import Mathlib

/-!
Shallow embedding of the energy-optimized TinyML ESP32 firmware
(`src/include/config.h`: constants, `EnergyOptimizedVoiceML`, and
`EnergyCalibrator`), together with theorems settling the frozen claims
about its energy-mode policy, battery classification, voice-activity
detection, inference gating, and calibration logic.

Modelling conventions:
- C `float` arithmetic is modelled over `ℚ` (exact rationals); every
  threshold comparison in the source is a plain `<` / `>` on values that
  the claims probe at exact decimal points, so rational arithmetic is
  faithful to the comparison structure.
- Machine integers: `uint8_t` counters are `Nat` with an explicit
  `% 256` on increment; `unsigned long` (32-bit `millis()` clock)
  subtraction is `usub`, i.e. subtraction modulo `2 ^ 32`.
- Hardware effects (CPU-frequency requests, I2S reconfiguration, entry
  into deep sleep) are reified in an `Effects` record returned next to
  the updated state, so that "no reconfiguration was issued" is a
  provable statement.
- Wall-clock reads (`millis()`, `micros()`), the ADC raw reading, the
  button level and the success of the I2S read are inputs to the step
  functions; log output, the LED, and the feature buffer
  `preprocessed_audio` (written but never read by any claim-relevant
  code path) are not modelled.
-/

namespace TinyMLVoice

/-! Constants, verbatim from `config.h` and the engine header. -/

def AUDIO_SAMPLE_RATE : Nat := 16000
def AUDIO_BUFFER_SIZE : Nat := 1024
def INPUT_FEATURES : Nat := 1024
def MIC_LOW_POWER_SAMPLE_RATE : Nat := 8000
def MIC_NORMAL_SAMPLE_RATE : Nat := 16000
def MIC_BUFFER_REDUCTION : Nat := 4
def VOICE_DETECTION_THRESHOLD : ℚ := 2 / 1000
def SILENCE_TIMEOUT_MS : Nat := 2000
def DEEP_SLEEP_TIMEOUT_MS : Nat := 5000
def INFERENCE_SKIP_COUNT : Nat := 3
def BATTERY_LOW_VOLTAGE : ℚ := 33 / 10
def CALIBRATION_SAMPLES : Nat := 100

/-- `EnergyMode` enum; the C ordinals are given by `EnergyMode.toNat`. -/
inductive EnergyMode where
  | active
  | balanced
  | eco
  | ultraEco
  | deepSleep
deriving DecidableEq

def EnergyMode.toNat : EnergyMode → Nat
  | .active => 0
  | .balanced => 1
  | .eco => 2
  | .ultraEco => 3
  | .deepSleep => 4

/-- `BatteryLevel` enum; C ordinals `FULL = 0 < GOOD = 1 < LOW = 2 < CRITICAL = 3`. -/
inductive BatteryLevel where
  | full
  | good
  | low
  | critical
deriving DecidableEq

def BatteryLevel.toNat : BatteryLevel → Nat
  | .full => 0
  | .good => 1
  | .low => 2
  | .critical => 3

/-- `energy_metrics_t`. `consecutive_silence` is a `uint8_t` in the source;
here a `Nat` updated modulo `256`. -/
structure EnergyMetrics where
  inference_time_us : Nat
  mic_active_time_ms : Nat
  total_sleep_time_ms : Nat
  power_consumption_mw : ℚ
  battery_voltage : ℚ
  battery_level : BatteryLevel
  confidence : ℚ
  predicted_class : Nat
  voice_detected : Bool
  total_inferences : Nat
  skipped_inferences : Nat
  consecutive_silence : Nat
deriving DecidableEq

/-- The claim-relevant mutable state of `EnergyOptimizedVoiceML`.
`inference_skip_counter` is a `uint8_t` (updated modulo `256`). -/
structure EngineState where
  current_buffer_size : Nat
  current_sample_rate : Nat
  metrics : EnergyMetrics
  current_energy_mode : EnergyMode
  last_activity_time : Nat
  last_voice_time : Nat
  mic_active : Bool
  i2s_installed : Bool
  adaptive_mode_enabled : Bool
  inference_skip_counter : Nat
deriving DecidableEq

/-- Hardware side effects issued by a mode transition. -/
structure Effects where
  cpu_freq_set : Option Nat
  i2s_reconfigured : Bool
  deep_sleep_entered : Bool
deriving DecidableEq

def Effects.silent : Effects :=
  { cpu_freq_set := Option.none, i2s_reconfigured := false, deep_sleep_entered := false }

/-- `metrics` after `memset(&metrics, 0, sizeof(energy_metrics_t))`:
every numeric field 0, booleans false, and `battery_level` the ordinal-0
enumerator `BATTERY_FULL`. -/
def zeroed_metrics : EnergyMetrics :=
  { inference_time_us := 0, mic_active_time_ms := 0, total_sleep_time_ms := 0,
    power_consumption_mw := 0, battery_voltage := 0, battery_level := BatteryLevel.full,
    confidence := 0, predicted_class := 0, voice_detected := false,
    total_inferences := 0, skipped_inferences := 0, consecutive_silence := 0 }

/-- The constructor `EnergyOptimizedVoiceML()`; `t` is the `millis()` value
read for the two timestamps. -/
def initial_state (t : Nat) : EngineState :=
  { current_buffer_size := AUDIO_BUFFER_SIZE / MIC_BUFFER_REDUCTION,
    current_sample_rate := MIC_LOW_POWER_SAMPLE_RATE,
    metrics := zeroed_metrics,
    current_energy_mode := EnergyMode.ultraEco,
    last_activity_time := t,
    last_voice_time := t,
    mic_active := false,
    i2s_installed := false,
    adaptive_mode_enabled := true,
    inference_skip_counter := 0 }

/-- 32-bit unsigned subtraction `a - b`, as in `current_time - last_voice_time`
on `unsigned long`. -/
def usub (a b : Nat) : Nat := (2 ^ 32 + a % 2 ^ 32 - b % 2 ^ 32) % 2 ^ 32

/-- `cleanup_resources()`: uninstalls the I2S driver only when
`mic_active && i2s_installed`, then clears `mic_active` (buffer frees are
not observable here). -/
def cleanup_resources (s : EngineState) : EngineState :=
  if s.mic_active ∧ s.i2s_installed then
    { s with mic_active := false, i2s_installed := false }
  else
    { s with mic_active := false }

/-- `reconfigure_i2s()`: when the mic is active, tears the driver down and
re-installs it at the current sample rate (modelled as the install
succeeding, leaving `i2s_installed` set). -/
def reconfigure_i2s (s : EngineState) : EngineState :=
  if s.mic_active then { s with i2s_installed := true } else s

/-- Tail of the non-deep-sleep arms of `set_energy_mode`: after the switch
statement, `if (mic_active) reconfigure_i2s();`. `freq` is the argument of
the `setCpuFrequencyMhz` call the arm issued. -/
def after_mode_switch (s : EngineState) (freq : Nat) : EngineState × Effects :=
  if s.mic_active then
    (reconfigure_i2s s,
      { cpu_freq_set := some freq, i2s_reconfigured := true, deep_sleep_entered := false })
  else
    (s, { cpu_freq_set := some freq, i2s_reconfigured := false, deep_sleep_entered := false })

/-- `set_energy_mode(mode)`. Early-returns (no state change, no effect)
when the target equals the current mode; the `ENERGY_DEEP_SLEEP` arm calls
`cleanup_resources()` and then `esp_deep_sleep_start()`, which never
returns (so the post-switch I2S reconfiguration is never reached). -/
def set_energy_mode (s : EngineState) (mode : EnergyMode) : EngineState × Effects :=
  if s.current_energy_mode = mode then (s, Effects.silent)
  else
    match mode with
    | EnergyMode.active =>
        after_mode_switch
          { s with current_energy_mode := mode,
                   current_sample_rate := AUDIO_SAMPLE_RATE,
                   current_buffer_size := AUDIO_BUFFER_SIZE,
                   metrics := { s.metrics with power_consumption_mw := 180 } } 240
    | EnergyMode.balanced =>
        after_mode_switch
          { s with current_energy_mode := mode,
                   current_sample_rate := MIC_NORMAL_SAMPLE_RATE,
                   current_buffer_size := AUDIO_BUFFER_SIZE / 2,
                   metrics := { s.metrics with power_consumption_mw := 120 } } 160
    | EnergyMode.eco =>
        after_mode_switch
          { s with current_energy_mode := mode,
                   current_sample_rate := MIC_LOW_POWER_SAMPLE_RATE,
                   current_buffer_size := AUDIO_BUFFER_SIZE / 4,
                   metrics := { s.metrics with power_consumption_mw := 60 } } 80
    | EnergyMode.ultraEco =>
        after_mode_switch
          { s with current_energy_mode := mode,
                   current_sample_rate := MIC_LOW_POWER_SAMPLE_RATE,
                   current_buffer_size := AUDIO_BUFFER_SIZE / 8,
                   metrics := { s.metrics with power_consumption_mw := 25 } } 40
    | EnergyMode.deepSleep =>
        (cleanup_resources { s with current_energy_mode := mode },
          { cpu_freq_set := Option.none, i2s_reconfigured := false, deep_sleep_entered := true })

/-- `manage_energy_modes(current_time)`: button overrides everything;
then the voice / voice-idle / activity-idle chain. Note the source
compares `metrics.battery_level <= BATTERY_LOW` on the C ordinals. -/
def manage_energy_modes (s : EngineState) (button_pressed : Bool) (current_time : Nat) :
    EngineState :=
  if button_pressed then
    { (set_energy_mode s EnergyMode.active).1 with last_activity_time := current_time }
  else if s.metrics.voice_detected then
    if EnergyMode.toNat EnergyMode.balanced <
        EnergyMode.toNat s.current_energy_mode then
      (set_energy_mode { s with last_voice_time := current_time } EnergyMode.balanced).1
    else { s with last_voice_time := current_time }
  else if DEEP_SLEEP_TIMEOUT_MS < usub current_time s.last_voice_time then
    if BatteryLevel.toNat s.metrics.battery_level ≤ BatteryLevel.toNat BatteryLevel.low then
      (set_energy_mode s EnergyMode.deepSleep).1
    else
      (set_energy_mode s EnergyMode.ultraEco).1
  else if SILENCE_TIMEOUT_MS < usub current_time s.last_activity_time then
    if EnergyMode.toNat s.current_energy_mode < EnergyMode.toNat EnergyMode.eco then
      (set_energy_mode s EnergyMode.eco).1
    else s
  else s

/-- Voltage computed by `update_battery_status` from the raw 12-bit ADC
reading: `(adc_reading * 3.3 * 2.0) / 4095.0`. -/
def battery_voltage_of_adc (adc_reading : Nat) : ℚ :=
  ((adc_reading : ℚ) * (33 / 10) * 2) / 4095

/-- The classification ladder of `update_battery_status`:
`> 4.0 → FULL`, `> 3.7 → GOOD`, `> BATTERY_LOW_VOLTAGE → LOW`,
else `CRITICAL`. -/
def battery_level_of (v : ℚ) : BatteryLevel :=
  if 4 < v then BatteryLevel.full
  else if 37 / 10 < v then BatteryLevel.good
  else if BATTERY_LOW_VOLTAGE < v then BatteryLevel.low
  else BatteryLevel.critical

/-- `update_battery_status()`: stores voltage and level, then on
`CRITICAL` requests `ENERGY_DEEP_SLEEP`, on `LOW` requests
`ENERGY_ULTRA_ECO`. -/
def update_battery_status (s : EngineState) (adc_reading : Nat) : EngineState × Effects :=
  if battery_level_of (battery_voltage_of_adc adc_reading) = BatteryLevel.critical then
    set_energy_mode
      { s with metrics := { s.metrics with
          battery_voltage := battery_voltage_of_adc adc_reading,
          battery_level := battery_level_of (battery_voltage_of_adc adc_reading) } }
      EnergyMode.deepSleep
  else if battery_level_of (battery_voltage_of_adc adc_reading) = BatteryLevel.low then
    set_energy_mode
      { s with metrics := { s.metrics with
          battery_voltage := battery_voltage_of_adc adc_reading,
          battery_level := battery_level_of (battery_voltage_of_adc adc_reading) } }
      EnergyMode.ultraEco
  else
    ({ s with metrics := { s.metrics with
        battery_voltage := battery_voltage_of_adc adc_reading,
        battery_level := battery_level_of (battery_voltage_of_adc adc_reading) } },
      Effects.silent)

/-- The state- and effect-relevant part of `initialize()`: the battery
refresh (`update_battery_status`) followed by the forced
`set_energy_mode(ENERGY_ULTRA_ECO)`. The other steps (serial, power
management, pins, TensorFlow setup) touch none of the modelled fields and
issue no `setCpuFrequencyMhz`/I2S-reconfigure effect. If the battery step
enters deep sleep, execution never reaches the forced call. Returns the
final state, the battery step's effects, and the forced call's effects. -/
def engine_init (s : EngineState) (adc_reading : Nat) : EngineState × Effects × Effects :=
  if (update_battery_status s adc_reading).2.deep_sleep_entered then
    ((update_battery_status s adc_reading).1,
      (update_battery_status s adc_reading).2, Effects.silent)
  else
    ((set_energy_mode (update_battery_status s adc_reading).1 EnergyMode.ultraEco).1,
      (update_battery_status s adc_reading).2,
      (set_energy_mode (update_battery_status s adc_reading).1 EnergyMode.ultraEco).2)

/-- The VAD energy accumulation loop of `preprocess_audio_efficient`:
`energy += (audio_buffer[i] / 32768.0f)^2` over
`samples_to_process = MIN(current_buffer_size, INPUT_FEATURES)` samples,
then `energy /= samples_to_process`. -/
def energy_of (buf : List Int) (n : Nat) : ℚ :=
  ((buf.take n).foldl (fun (acc : ℚ) (x : Int) => acc + ((x : ℚ) / 32768) * ((x : ℚ) / 32768)) 0) / n

/-- The value assigned to `metrics.voice_detected` by
`preprocess_audio_efficient`, and also that function's return value. -/
def voice_detected_now (s : EngineState) (buf : List Int) : Bool :=
  decide (VOICE_DETECTION_THRESHOLD <
    energy_of buf (min s.current_buffer_size INPUT_FEATURES))

/-- `preprocess_audio_efficient()`: sets `voice_detected`; on silence
increments the `uint8_t` `consecutive_silence` (wrapping modulo 256) and,
once it exceeds 10, shuts the microphone down; on voice resets the
counter to 0. (The `preprocessed_audio` writes are not observable by any
claim.) Its C return value is `metrics.voice_detected`, i.e.
`voice_detected_now s buf`. -/
def preprocess_audio_efficient (s : EngineState) (buf : List Int) : EngineState :=
  if voice_detected_now s buf then
    { s with metrics := { s.metrics with voice_detected := true, consecutive_silence := 0 } }
  else if 10 < (s.metrics.consecutive_silence + 1) % 256 then
    { s with
      metrics := { s.metrics with
        voice_detected := false,
        consecutive_silence := (s.metrics.consecutive_silence + 1) % 256 },
      mic_active := false,
      i2s_installed := false }
  else
    { s with
      metrics := { s.metrics with
        voice_detected := false,
        consecutive_silence := (s.metrics.consecutive_silence + 1) % 256 } }

/-- `should_run_inference()`: always true in `ENERGY_ACTIVE`; otherwise on
silence increments the `uint8_t` skip counter and returns false while it
is below `INFERENCE_SKIP_COUNT`; in every other case zeroes the counter
and returns true. -/
def should_run_inference (s : EngineState) : Bool × EngineState :=
  if s.current_energy_mode = EnergyMode.active then (true, s)
  else if s.metrics.voice_detected = false ∧
      (s.inference_skip_counter + 1) % 256 < INFERENCE_SKIP_COUNT then
    (false, { s with inference_skip_counter := (s.inference_skip_counter + 1) % 256 })
  else
    (true, { s with inference_skip_counter := 0 })

/-- `run_energy_inference()` in the shipped build (no TensorFlow linked,
`TFLITE_AVAILABLE = 0`): simulated class/confidence from the voice flag;
always returns true. (`inference_time_us` is a wall-clock read and not
modelled.) -/
def run_energy_inference (s : EngineState) : EngineState :=
  { s with metrics := { s.metrics with
      predicted_class := if s.metrics.voice_detected then 1 else 0,
      confidence := 3 / 4 } }

/-- Successful-inference bookkeeping in `run()`:
`process_results_efficient(); metrics.total_inferences++;
last_activity_time = current_time;`. -/
def infer_and_update (s : EngineState) (current_time : Nat) : EngineState :=
  { run_energy_inference s with
      metrics := { (run_energy_inference s).metrics with
        total_inferences := (run_energy_inference s).metrics.total_inferences + 1 },
      last_activity_time := current_time }

/-- The `metrics.skipped_inferences++` arm of `run()`. -/
def count_skip (s : EngineState) : EngineState :=
  { s with metrics := { s.metrics with
      skipped_inferences := s.metrics.skipped_inferences + 1 } }

/-- The audio stage of `run()` (lines inside `should_process_audio`):
`if (smart_audio_capture()) if (preprocess_audio_efficient()) { if
(should_run_inference()) {...} else skipped++; }`. `capture_ok` is the
result of the hardware read; the guard on the preprocessing call is its
return value, which is the `voice_detected` flag it just computed
(`voice_detected_now s buf`). -/
def run_audio_stage (s : EngineState) (capture_ok : Bool) (buf : List Int)
    (current_time : Nat) : EngineState :=
  if capture_ok then
    if voice_detected_now s buf then
      if (should_run_inference (preprocess_audio_efficient s buf)).1 then
        infer_and_update (should_run_inference (preprocess_audio_efficient s buf)).2
          current_time
      else
        count_skip (should_run_inference (preprocess_audio_efficient s buf)).2
    else
      preprocess_audio_efficient s buf
  else s

/-- `EnergyCalibrator`'s private state. -/
structure EnergyCalibrator where
  baseline_consumption : ℚ
  calibration_samples : Nat
  calibrated : Bool
deriving DecidableEq

/-- The `EnergyCalibrator()` constructor. -/
def calibrator_init : EnergyCalibrator :=
  { baseline_consumption := 0, calibration_samples := 0, calibrated := false }

/-- `EnergyCalibrator::add_sample(consumption)`. -/
def add_sample (s : EnergyCalibrator) (consumption : ℚ) : EnergyCalibrator :=
  if s.calibration_samples < CALIBRATION_SAMPLES then
    if s.calibration_samples + 1 = CALIBRATION_SAMPLES then
      { baseline_consumption := (s.baseline_consumption + consumption) / 100,
        calibration_samples := s.calibration_samples + 1,
        calibrated := true }
    else
      { baseline_consumption := s.baseline_consumption + consumption,
        calibration_samples := s.calibration_samples + 1,
        calibrated := s.calibrated }
  else s

/-- A sequence of `add_sample` calls, in order. -/
def add_samples (s : EnergyCalibrator) (l : List ℚ) : EnergyCalibrator :=
  l.foldl add_sample s

/-- `EnergyCalibrator::is_calibrated()`. -/
def is_calibrated (s : EnergyCalibrator) : Bool := s.calibrated

/-- `EnergyCalibrator::get_baseline()`. -/
def get_baseline (s : EnergyCalibrator) : ℚ := s.baseline_consumption

/-- `k` successive `should_run_inference()` calls, threading the state. -/
def gate_iter (s : EngineState) : Nat → EngineState
  | 0 => s
  | Nat.succ k => (should_run_inference (gate_iter s k)).2

/-- `k` successive `preprocess_audio_efficient()` passes over the same
captured buffer. -/
def preprocess_iter (buf : List Int) (s : EngineState) : Nat → EngineState
  | 0 => s
  | Nat.succ k => preprocess_audio_efficient (preprocess_iter buf s k) buf

/-- A freshly constructed engine whose adaptive capture length has been
set to `n` samples (the VAD processes `min n INPUT_FEATURES` samples). -/
def vad_test_state (n : Nat) : EngineState :=
  { initial_state 0 with current_buffer_size := n }

/-- A 500-sample capture whose mean-square normalized energy is exactly
0.002: one full-scale sample (`-32768`, normalizing to `-1`) and 499
zeros, giving `1 / 500 = 0.002`. -/
def vad_boundary_buffer : List Int :=
  (-32768 : Int) :: List.replicate 499 0

/-- A 625-sample capture whose mean-square normalized energy is exactly
0.0021: one full-scale sample and five at `8192` (each contributing
`1/16`), giving `(1 + 5/16) / 625 = 21/10000`. -/
def vad_above_buffer : List Int :=
  (-32768 : Int) :: (List.replicate 5 8192 ++ List.replicate 619 0)

/-- An all-zero (silent) capture matching the constructed engine's
256-sample buffer. -/
def silent_buffer : List Int := List.replicate 256 (0 : Int)

/-! Helper lemmas (shared; none of these is a claim's theorem). -/

theorem set_energy_mode_self (s : EngineState) (m : EnergyMode)
    (h : s.current_energy_mode = m) : set_energy_mode s m = (s, Effects.silent) := by
  unfold set_energy_mode
  rw [if_pos h]

theorem preprocess_voice_eq (s : EngineState) (buf : List Int) :
    (preprocess_audio_efficient s buf).metrics.voice_detected = voice_detected_now s buf := by
  unfold preprocess_audio_efficient
  split_ifs with h1 h2 <;> simp_all

theorem preprocess_consec (s : EngineState) (buf : List Int) :
    (preprocess_audio_efficient s buf).metrics.consecutive_silence =
      if voice_detected_now s buf then 0 else (s.metrics.consecutive_silence + 1) % 256 := by
  unfold preprocess_audio_efficient
  split_ifs with h1 h2 <;> simp_all

theorem preprocess_buffer_size (s : EngineState) (buf : List Int) :
    (preprocess_audio_efficient s buf).current_buffer_size = s.current_buffer_size := by
  unfold preprocess_audio_efficient
  split_ifs <;> rfl

theorem preprocess_skipped (s : EngineState) (buf : List Int) :
    (preprocess_audio_efficient s buf).metrics.skipped_inferences =
      s.metrics.skipped_inferences := by
  unfold preprocess_audio_efficient
  split_ifs <;> rfl

theorem preprocess_skip_counter (s : EngineState) (buf : List Int) :
    (preprocess_audio_efficient s buf).inference_skip_counter = s.inference_skip_counter := by
  unfold preprocess_audio_efficient
  split_ifs <;> rfl

theorem preprocess_iter_buffer_size (buf : List Int) (s : EngineState) (k : Nat) :
    (preprocess_iter buf s k).current_buffer_size = s.current_buffer_size := by
  induction k with
  | zero => rfl
  | succ k ih =>
      show (preprocess_audio_efficient (preprocess_iter buf s k) buf).current_buffer_size = _
      rw [preprocess_buffer_size]
      exact ih

theorem gate_true_of_voice (s : EngineState) (h : s.metrics.voice_detected = true) :
    (should_run_inference s).1 = true := by
  unfold should_run_inference
  split_ifs with h1 h2 <;> simp_all

theorem gate_skipped (s : EngineState) :
    (should_run_inference s).2.metrics.skipped_inferences = s.metrics.skipped_inferences := by
  unfold should_run_inference
  split_ifs <;> rfl

theorem gate_mode (s : EngineState) :
    (should_run_inference s).2.current_energy_mode = s.current_energy_mode := by
  unfold should_run_inference
  split_ifs <;> rfl

theorem gate_voice (s : EngineState) :
    (should_run_inference s).2.metrics.voice_detected = s.metrics.voice_detected := by
  unfold should_run_inference
  split_ifs <;> rfl

theorem gate_iter_mode (s : EngineState) (k : Nat) :
    (gate_iter s k).current_energy_mode = s.current_energy_mode := by
  induction k with
  | zero => rfl
  | succ k ih =>
      show (should_run_inference (gate_iter s k)).2.current_energy_mode = _
      rw [gate_mode]
      exact ih

theorem gate_iter_voice (s : EngineState) (k : Nat) :
    (gate_iter s k).metrics.voice_detected = s.metrics.voice_detected := by
  induction k with
  | zero => rfl
  | succ k ih =>
      show (should_run_inference (gate_iter s k)).2.metrics.voice_detected = _
      rw [gate_voice]
      exact ih

theorem gate_silent_step (s : EngineState)
    (hm : s.current_energy_mode ≠ EnergyMode.active)
    (hv : s.metrics.voice_detected = false) :
    should_run_inference s =
      if (s.inference_skip_counter + 1) % 256 < INFERENCE_SKIP_COUNT then
        (false, { s with inference_skip_counter := (s.inference_skip_counter + 1) % 256 })
      else (true, { s with inference_skip_counter := 0 }) := by
  unfold should_run_inference
  rw [if_neg hm]
  split_ifs with h1 h2 <;> simp_all

theorem infer_and_update_skipped (s : EngineState) (t : Nat) :
    (infer_and_update s t).metrics.skipped_inferences = s.metrics.skipped_inferences := rfl

theorem foldl_energy_eq_sum (l : List Int) : ∀ a : ℚ,
    l.foldl (fun (acc : ℚ) (x : Int) => acc + ((x : ℚ) / 32768) * ((x : ℚ) / 32768)) a =
      a + (l.map (fun (x : Int) => ((x : ℚ) / 32768) ^ 2)).sum := by
  induction l with
  | nil => intro a; simp
  | cons x t ih =>
      intro a
      rw [List.foldl_cons, List.map_cons, List.sum_cons, ih]
      ring

theorem energy_of_eq_sum (buf : List Int) (n : Nat) :
    energy_of buf n =
      ((buf.take n).map (fun (x : Int) => ((x : ℚ) / 32768) ^ 2)).sum / n := by
  unfold energy_of
  rw [foldl_energy_eq_sum]
  rw [zero_add]

theorem add_samples_under_cap (l : List ℚ) : ∀ s : EnergyCalibrator,
    s.calibration_samples + l.length < CALIBRATION_SAMPLES →
    add_samples s l =
      { baseline_consumption := s.baseline_consumption + l.sum,
        calibration_samples := s.calibration_samples + l.length,
        calibrated := s.calibrated } := by
  induction l with
  | nil =>
      intro s h
      cases s with
      | mk b n c => simp [add_samples]
  | cons a t ih =>
      intro s h
      simp only [List.length_cons] at h
      have hs : s.calibration_samples < CALIBRATION_SAMPLES := by
        unfold CALIBRATION_SAMPLES at *; omega
      have hne : ¬(s.calibration_samples + 1 = CALIBRATION_SAMPLES) := by
        unfold CALIBRATION_SAMPLES at *; omega
      show add_samples (add_sample s a) t = _
      rw [add_sample, if_pos hs, if_neg hne]
      rw [ih _ (by show s.calibration_samples + 1 + t.length < CALIBRATION_SAMPLES; omega)]
      simp only [EnergyCalibrator.mk.injEq, List.sum_cons, List.length_cons]
      refine ⟨by ring, by omega, trivial⟩

theorem preprocess_total (s : EngineState) (buf : List Int) :
    (preprocess_audio_efficient s buf).metrics.total_inferences =
      s.metrics.total_inferences := by
  unfold preprocess_audio_efficient
  split_ifs <;> rfl

theorem energy_of_replicate_zero (n m : Nat) :
    energy_of (List.replicate n (0 : Int)) m = 0 := by
  rw [energy_of_eq_sum, List.take_replicate, List.map_replicate, List.sum_replicate]
  simp

theorem add_samples_saturated (l : List ℚ) : ∀ s : EnergyCalibrator,
    CALIBRATION_SAMPLES ≤ s.calibration_samples → add_samples s l = s := by
  induction l with
  | nil => intro s _; rfl
  | cons a t ih =>
      intro s h
      show add_samples (add_sample s a) t = s
      rw [add_sample, if_neg (by omega)]
      exact ih s h

theorem battery_full_iff (v : ℚ) :
    battery_level_of v = BatteryLevel.full ↔ 4 < v := by
  unfold battery_level_of
  constructor
  · intro h
    split_ifs at h with h1 h2 h3
    exact h1
  · intro h
    rw [if_pos h]

theorem battery_good_iff (v : ℚ) :
    battery_level_of v = BatteryLevel.good ↔ 37 / 10 < v ∧ v ≤ 4 := by
  unfold battery_level_of
  constructor
  · intro h
    split_ifs at h with h1 h2 h3
    exact ⟨h2, le_of_not_lt h1⟩
  · rintro ⟨hl, hr⟩
    rw [if_neg (not_lt.mpr hr), if_pos hl]

theorem battery_low_iff (v : ℚ) :
    battery_level_of v = BatteryLevel.low ↔ 33 / 10 < v ∧ v ≤ 37 / 10 := by
  unfold battery_level_of BATTERY_LOW_VOLTAGE
  constructor
  · intro h
    split_ifs at h with h1 h2 h3
    exact ⟨h3, le_of_not_lt h2⟩
  · rintro ⟨hl, hr⟩
    rw [if_neg (by intro e; linarith), if_neg (not_lt.mpr hr), if_pos hl]

theorem battery_critical_iff (v : ℚ) :
    battery_level_of v = BatteryLevel.critical ↔ v ≤ 33 / 10 := by
  unfold battery_level_of BATTERY_LOW_VOLTAGE
  constructor
  · intro h
    split_ifs at h with h1 h2 h3
    exact le_of_not_lt h3
  · intro h
    rw [if_neg (by intro e; linarith), if_neg (by intro e; linarith),
      if_neg (not_lt.mpr h)]

/-! Theorems settling the claims. -/

/-- Claim C6 (confirmed): `set_energy_mode` is idempotent — calling it with
the engine's current mode returns the state unchanged (sample rate, buffer
size, `power_consumption_mw`, mode all as before) and issues no CPU
frequency change, no I2S reconfiguration, and no deep-sleep entry. -/
theorem set_energy_mode_idempotent (s : EngineState) :
    set_energy_mode s s.current_energy_mode = (s, Effects.silent) :=
  set_energy_mode_self s s.current_energy_mode rfl

/-- Claim C3 (counterexample): the claim's test vector demands
`3.7 → GOOD` and `3.3 → LOW`, but the classifier's strict-greater ladder
puts `3.7` in `LOW` and `3.3` in `CRITICAL`. -/
theorem battery_vector_counterexample :
    battery_level_of (37 / 10) = BatteryLevel.low ∧
    battery_level_of (37 / 10) ≠ BatteryLevel.good ∧
    battery_level_of (33 / 10) = BatteryLevel.critical ∧
    battery_level_of (33 / 10) ≠ BatteryLevel.low := by
  have h1 : battery_level_of (37 / 10) = BatteryLevel.low := by
    norm_num [battery_level_of, BATTERY_LOW_VOLTAGE]
  have h2 : battery_level_of (33 / 10) = BatteryLevel.critical := by
    norm_num [battery_level_of, BATTERY_LOW_VOLTAGE]
  exact ⟨h1, by rw [h1]; decide, h2, by rw [h2]; decide⟩

/-- Claim C1 (code bug): `manage_energy_modes` compares
`battery_level <= BATTERY_LOW` on C ordinals (`FULL=0 < GOOD=1 < LOW=2 <
CRITICAL=3`), so after a voice-idle period above 5000 ms with the button
up and no voice, a `CRITICAL` battery selects `ULTRA_ECO` and a `FULL`
battery selects `DEEP_SLEEP` — the reverse of the specified policy. -/
theorem manage_energy_modes_inverted_battery_guard :
    (manage_energy_modes
      { initial_state 0 with
          metrics := { zeroed_metrics with battery_level := BatteryLevel.critical } }
      false 6000).current_energy_mode = EnergyMode.ultraEco ∧
    (manage_energy_modes (initial_state 0) false 6000).current_energy_mode =
      EnergyMode.deepSleep := by
  constructor <;> rfl

/-- Claim C2 (code bug): in `run()`, the inference gate is guarded by the
return value of `preprocess_audio_efficient()`, which is the
`voice_detected` flag itself — so on a silent cycle the gate is never
consulted and `skipped_inferences` is never incremented; in fact
`skipped_inferences` can never change in any cycle whatsoever. The
concrete conjuncts evaluate a successful-capture, silent (all-zero
buffer) cycle from the freshly constructed state. -/
theorem run_never_increments_skipped_inferences :
    (∀ (s : EngineState) (capture_ok : Bool) (buf : List Int) (t : Nat),
      (run_audio_stage s capture_ok buf t).metrics.skipped_inferences =
        s.metrics.skipped_inferences) ∧
    (run_audio_stage (initial_state 0) true (List.replicate 256 (0 : Int))
      600).metrics.voice_detected = false ∧
    (run_audio_stage (initial_state 0) true (List.replicate 256 (0 : Int))
      600).metrics.skipped_inferences = 0 ∧
    (run_audio_stage (initial_state 0) true (List.replicate 256 (0 : Int))
      600).inference_skip_counter = 0 ∧
    (run_audio_stage (initial_state 0) true (List.replicate 256 (0 : Int))
      600).metrics.total_inferences = 0 := by
  have hgen : ∀ (s : EngineState) (capture_ok : Bool) (buf : List Int) (t : Nat),
      (run_audio_stage s capture_ok buf t).metrics.skipped_inferences =
        s.metrics.skipped_inferences := by
    intro s capture_ok buf t
    unfold run_audio_stage
    split_ifs with hok hv hg
    · rw [infer_and_update_skipped, gate_skipped, preprocess_skipped]
    · exact absurd (gate_true_of_voice _ (by rw [preprocess_voice_eq]; exact hv)) hg
    · rw [preprocess_skipped]
    · rfl
  have hzero : voice_detected_now (initial_state 0) (List.replicate 256 (0 : Int)) = false := by
    unfold voice_detected_now
    rw [energy_of_replicate_zero]
    simp only [decide_eq_false_iff_not]
    norm_num [VOICE_DETECTION_THRESHOLD]
  have hrun : run_audio_stage (initial_state 0) true (List.replicate 256 (0 : Int)) 600 =
      preprocess_audio_efficient (initial_state 0) (List.replicate 256 (0 : Int)) := by
    unfold run_audio_stage
    rw [if_pos rfl, if_neg (by rw [hzero]; exact Bool.false_ne_true)]
  refine ⟨hgen, ?_, ?_, ?_, ?_⟩
  · rw [hrun, preprocess_voice_eq, hzero]
  · rw [hrun, preprocess_skipped]; rfl
  · rw [hrun, preprocess_skip_counter]; rfl
  · rw [hrun, preprocess_total]; rfl

/-- Claim C8 (counterexample): after a single `add_sample(5.0)` the
calibrator has absorbed fewer than 100 samples, yet `get_baseline()`
returns the running sum 5, not 0. -/
theorem get_baseline_precal_counterexample :
    (add_sample calibrator_init 5).calibration_samples = 1 ∧
    (add_sample calibrator_init 5).calibration_samples < CALIBRATION_SAMPLES ∧
    get_baseline (add_sample calibrator_init 5) = 5 ∧
    get_baseline (add_sample calibrator_init 5) ≠ 0 := by
  have h : add_sample calibrator_init 5 =
      { baseline_consumption := 5, calibration_samples := 1, calibrated := false } := by
    unfold add_sample calibrator_init CALIBRATION_SAMPLES
    norm_num
  rw [h]
  refine ⟨rfl, by norm_num [CALIBRATION_SAMPLES], rfl, by norm_num [get_baseline]⟩

/-- Claim C8 (amended): before calibration completes (fewer than 100
samples absorbed), `get_baseline()` returns the running, undivided sum of
the samples added so far — which is 0 only when no samples (or samples
summing to 0) have been added — and `is_calibrated()` is false. -/
theorem get_baseline_running_sum (l : List ℚ) (h : l.length < CALIBRATION_SAMPLES) :
    get_baseline (add_samples calibrator_init l) = l.sum ∧
    is_calibrated (add_samples calibrator_init l) = false ∧
    (add_samples calibrator_init l).calibration_samples = l.length := by
  rw [add_samples_under_cap l calibrator_init
    (by show 0 + l.length < CALIBRATION_SAMPLES; omega)]
  refine ⟨?_, rfl, ?_⟩
  · show (0 : ℚ) + l.sum = l.sum
    rw [zero_add]
  · show 0 + l.length = l.length
    omega

/-- Witness for `get_baseline_running_sum` at the one-sample list `[5]`. -/
theorem get_baseline_running_sum_witness :
    ([(5 : ℚ)].length < CALIBRATION_SAMPLES) ∧
    get_baseline (add_samples calibrator_init [(5 : ℚ)]) = 5 ∧
    is_calibrated (add_samples calibrator_init [(5 : ℚ)]) = false := by
  have hlen : ([(5 : ℚ)]).length < CALIBRATION_SAMPLES := by
    norm_num [CALIBRATION_SAMPLES]
  have h := get_baseline_running_sum [(5 : ℚ)] hlen
  exact ⟨hlen, by rw [h.1]; norm_num, h.2.1⟩

/-- Claim C5 (confirmed): after exactly 100 `add_sample` calls the
baseline is the sum of the 100 samples divided by 100 and
`is_calibrated()` is true; every further `add_sample` call (any
arguments, any number of calls) leaves the state — baseline, sample
count, flag — completely unchanged. -/
theorem calibrator_saturation (l : List ℚ) (h : l.length = CALIBRATION_SAMPLES) :
    is_calibrated (add_samples calibrator_init l) = true ∧
    get_baseline (add_samples calibrator_init l) = l.sum / 100 ∧
    (add_samples calibrator_init l).calibration_samples = 100 ∧
    ∀ l₂ : List ℚ, add_samples (add_samples calibrator_init l) l₂ =
      add_samples calibrator_init l := by
  have hne : l ≠ [] := by
    intro e
    rw [e] at h
    norm_num [CALIBRATION_SAMPLES] at h
  have hl99 : l.dropLast.length = 99 := by
    rw [List.length_dropLast, h]
    norm_num [CALIBRATION_SAMPLES]
  have hlt : calibrator_init.calibration_samples + l.dropLast.length <
      CALIBRATION_SAMPLES := by
    show 0 + l.dropLast.length < CALIBRATION_SAMPLES
    rw [hl99]
    norm_num [CALIBRATION_SAMPLES]
  have hpart2 : add_samples calibrator_init l.dropLast =
      { baseline_consumption := l.dropLast.sum, calibration_samples := 99,
        calibrated := false } := by
    rw [add_samples_under_cap l.dropLast calibrator_init hlt]
    simp [calibrator_init, hl99]
  have hstep : add_sample
      { baseline_consumption := l.dropLast.sum, calibration_samples := 99,
        calibrated := false } (l.getLast hne) =
      { baseline_consumption := (l.dropLast.sum + l.getLast hne) / 100,
        calibration_samples := 100, calibrated := true } := by
    unfold add_sample CALIBRATION_SAMPLES
    norm_num
  have happend : add_samples calibrator_init (l.dropLast ++ [l.getLast hne]) =
      add_sample (add_samples calibrator_init l.dropLast) (l.getLast hne) := by
    unfold add_samples
    rw [List.foldl_append]
    rfl
  have hsum : l.dropLast.sum + l.getLast hne = l.sum := by
    conv_rhs => rw [← List.dropLast_append_getLast hne]
    rw [List.sum_append, List.sum_cons, List.sum_nil, add_zero]
  have hfull : add_samples calibrator_init l =
      { baseline_consumption := l.sum / 100, calibration_samples := 100,
        calibrated := true } := by
    conv_lhs => rw [← List.dropLast_append_getLast hne]
    rw [happend, hpart2, hstep, hsum]
  refine ⟨?_, ?_, ?_, ?_⟩
  · rw [hfull]; rfl
  · rw [hfull]; rfl
  · rw [hfull]
  · intro l₂
    exact add_samples_saturated l₂ _ (by rw [hfull]; exact Nat.le_refl 100)

/-- Witness for `calibrator_saturation` at 100 samples of value 1:
calibration completes and the baseline is 1. -/
theorem calibrator_saturation_witness :
    (List.replicate 100 (1 : ℚ)).length = CALIBRATION_SAMPLES ∧
    is_calibrated (add_samples calibrator_init (List.replicate 100 (1 : ℚ))) = true ∧
    get_baseline (add_samples calibrator_init (List.replicate 100 (1 : ℚ))) = 1 := by
  have hl : (List.replicate 100 (1 : ℚ)).length = CALIBRATION_SAMPLES := by
    norm_num [CALIBRATION_SAMPLES]
  have h := calibrator_saturation (List.replicate 100 (1 : ℚ)) hl
  refine ⟨hl, h.1, ?_⟩
  rw [h.2.1, List.sum_replicate]
  norm_num

/-- Claim C3 (amended): the strict-greater classification ladder holds as
an iff characterization — `FULL` iff `v > 4.0`, `GOOD` iff
`3.7 < v <= 4.0`, `LOW` iff `3.3 < v <= 3.7`, `CRITICAL` iff `v <= 3.3` —
and on the claim's ten test voltages the classifier returns
FULL, GOOD, GOOD, GOOD, LOW, LOW, LOW, CRITICAL, CRITICAL, CRITICAL
(the boundary values 3.7 and 3.3 classify into the lower band, unlike the
claim's stated vector). -/
theorem battery_classification_amended :
    (∀ v : ℚ,
      (battery_level_of v = BatteryLevel.full ↔ 4 < v) ∧
      (battery_level_of v = BatteryLevel.good ↔ 37 / 10 < v ∧ v ≤ 4) ∧
      (battery_level_of v = BatteryLevel.low ↔ 33 / 10 < v ∧ v ≤ 37 / 10) ∧
      (battery_level_of v = BatteryLevel.critical ↔ v ≤ 33 / 10)) ∧
    (battery_level_of (41 / 10) = BatteryLevel.full ∧
     battery_level_of 4 = BatteryLevel.good ∧
     battery_level_of (39 / 10) = BatteryLevel.good ∧
     battery_level_of (371 / 100) = BatteryLevel.good ∧
     battery_level_of (37 / 10) = BatteryLevel.low ∧
     battery_level_of (35 / 10) = BatteryLevel.low ∧
     battery_level_of (331 / 100) = BatteryLevel.low ∧
     battery_level_of (33 / 10) = BatteryLevel.critical ∧
     battery_level_of 3 = BatteryLevel.critical ∧
     battery_level_of (29 / 10) = BatteryLevel.critical) := by
  refine ⟨fun v =>
    ⟨battery_full_iff v, battery_good_iff v, battery_low_iff v, battery_critical_iff v⟩,
    ?_, ?_, ?_, ?_, ?_, ?_, ?_, ?_, ?_, ?_⟩ <;>
    norm_num [battery_level_of, BATTERY_LOW_VOLTAGE]

/-- Claim C4 (confirmed): in `ENERGY_ACTIVE` every `should_run_inference`
call returns true with the state untouched; in any other mode, with voice
never detected and the skip counter starting at 0, the counter after `k`
calls is `k % 3`, so calls report false, false, true, false, false, true,
… — the `(3j)`-th call returns true and resets the counter to 0, and the
pattern repeats indefinitely. -/
theorem inference_gate_skip_cycle :
    (∀ s : EngineState, s.current_energy_mode = EnergyMode.active →
      should_run_inference s = (true, s)) ∧
    (∀ (s : EngineState) (k : Nat), s.current_energy_mode ≠ EnergyMode.active →
      s.metrics.voice_detected = false → s.inference_skip_counter = 0 →
      (gate_iter s k).inference_skip_counter = k % 3 ∧
      (should_run_inference (gate_iter s k)).1 = decide ((k + 1) % 3 = 0)) := by
  constructor
  · intro s h
    unfold should_run_inference
    rw [if_pos h]
  · intro s k hm hv h0
    have hm' : ∀ j, (gate_iter s j).current_energy_mode ≠ EnergyMode.active := by
      intro j; rw [gate_iter_mode]; exact hm
    have hv' : ∀ j, (gate_iter s j).metrics.voice_detected = false := by
      intro j; rw [gate_iter_voice]; exact hv
    have hcount : ∀ j, (gate_iter s j).inference_skip_counter = j % 3 := by
      intro j
      induction j with
      | zero => simpa using h0
      | succ j ih =>
          show (should_run_inference (gate_iter s j)).2.inference_skip_counter = (j + 1) % 3
          rw [gate_silent_step _ (hm' j) (hv' j), ih]
          unfold INFERENCE_SKIP_COUNT
          split_ifs with hc
          · show (j % 3 + 1) % 256 = (j + 1) % 3
            omega
          · show 0 = (j + 1) % 3
            omega
    refine ⟨hcount k, ?_⟩
    rw [gate_silent_step _ (hm' k) (hv' k), hcount k]
    unfold INFERENCE_SKIP_COUNT
    split_ifs with hc
    · show false = decide ((k + 1) % 3 = 0)
      symm
      exact decide_eq_false (by omega)
    · show true = decide ((k + 1) % 3 = 0)
      symm
      exact decide_eq_true (by omega)

/-- Witness for `inference_gate_skip_cycle`: from the freshly constructed
state (mode `ULTRA_ECO`, voice never detected, counter 0) the first two
gate calls return false, the third returns true, and after three calls
the counter is back to 0. -/
theorem inference_gate_skip_cycle_witness :
    (initial_state 0).current_energy_mode ≠ EnergyMode.active ∧
    (initial_state 0).metrics.voice_detected = false ∧
    (initial_state 0).inference_skip_counter = 0 ∧
    (should_run_inference (gate_iter (initial_state 0) 0)).1 = false ∧
    (should_run_inference (gate_iter (initial_state 0) 1)).1 = false ∧
    (should_run_inference (gate_iter (initial_state 0) 2)).1 = true ∧
    (gate_iter (initial_state 0) 3).inference_skip_counter = 0 := by
  have hm : (initial_state 0).current_energy_mode ≠ EnergyMode.active := by decide
  have hv : (initial_state 0).metrics.voice_detected = false := rfl
  have h0 : (initial_state 0).inference_skip_counter = 0 := rfl
  have h1 := inference_gate_skip_cycle.2 (initial_state 0) 0 hm hv h0
  have h2 := inference_gate_skip_cycle.2 (initial_state 0) 1 hm hv h0
  have h3 := inference_gate_skip_cycle.2 (initial_state 0) 2 hm hv h0
  have h4 := inference_gate_skip_cycle.2 (initial_state 0) 3 hm hv h0
  refine ⟨hm, hv, h0, ?_, ?_, ?_, h4.1⟩
  · rw [h1.2]
    decide
  · rw [h2.2]
    decide
  · rw [h3.2]
    decide

/-- Claim C7 (confirmed): preprocessing declares voice detected iff the
mean square of the normalized samples (each divided by 32768) over
`min(current_buffer_size, INPUT_FEATURES)` samples strictly exceeds
0.002; a buffer whose mean-square energy is exactly 0.002 is not
detected, and one at 0.0021 is detected. -/
theorem vad_strict_threshold :
    (∀ (s : EngineState) (buf : List Int),
      ((preprocess_audio_efficient s buf).metrics.voice_detected = true ↔
        2 / 1000 <
          ((buf.take (min s.current_buffer_size INPUT_FEATURES)).map
              (fun (x : Int) => ((x : ℚ) / 32768) ^ 2)).sum /
            ((min s.current_buffer_size INPUT_FEATURES : Nat) : ℚ))) ∧
    energy_of vad_boundary_buffer 500 = 2 / 1000 ∧
    (preprocess_audio_efficient (vad_test_state 500)
      vad_boundary_buffer).metrics.voice_detected = false ∧
    energy_of vad_above_buffer 625 = 21 / 10000 ∧
    (preprocess_audio_efficient (vad_test_state 625)
      vad_above_buffer).metrics.voice_detected = true := by
  have e1 : energy_of vad_boundary_buffer 500 = 2 / 1000 := by
    unfold vad_boundary_buffer
    rw [energy_of_eq_sum,
      List.take_of_length_le (by simp only [List.length_cons, List.length_replicate]; omega),
      List.map_cons, List.sum_cons, List.map_replicate, List.sum_replicate]
    norm_num
  have e2 : energy_of vad_above_buffer 625 = 21 / 10000 := by
    unfold vad_above_buffer
    rw [energy_of_eq_sum,
      List.take_of_length_le (by
        simp only [List.length_cons, List.length_append, List.length_replicate]; omega),
      List.map_cons, List.sum_cons, List.map_append, List.sum_append,
      List.map_replicate, List.sum_replicate, List.map_replicate, List.sum_replicate]
    norm_num [nsmul_eq_mul]
  have hmin1 : min (vad_test_state 500).current_buffer_size INPUT_FEATURES = 500 := rfl
  have hmin2 : min (vad_test_state 625).current_buffer_size INPUT_FEATURES = 625 := rfl
  refine ⟨?_, e1, ?_, e2, ?_⟩
  · intro s buf
    rw [preprocess_voice_eq]
    unfold voice_detected_now VOICE_DETECTION_THRESHOLD
    rw [energy_of_eq_sum]
    exact decide_eq_true_iff
  · rw [preprocess_voice_eq]
    unfold voice_detected_now
    rw [hmin1, e1]
    simp only [decide_eq_false_iff_not]
    norm_num [VOICE_DETECTION_THRESHOLD]
  · rw [preprocess_voice_eq]
    unfold voice_detected_now
    rw [hmin2, e2]
    rw [decide_eq_true_iff]
    norm_num [VOICE_DETECTION_THRESHOLD]

/-- Claim C9 (confirmed): the engine is constructed already in
`ULTRA_ECO`, so the forced `set_energy_mode(ENERGY_ULTRA_ECO)` inside
`initialize()` is a no-op: provided the initial battery reading is not
CRITICAL (which would deep-sleep before that call), after construction
plus `initialize()` the buffer size is still `AUDIO_BUFFER_SIZE/4 = 256`
(not the ULTRA_ECO table's 128), `power_consumption_mw` is still 0 (not
25), the mode is `ULTRA_ECO`, and the forced call issues no CPU-frequency
set and no I2S reconfiguration. -/
theorem engine_init_preserves_ultra_eco_defaults (t adc : Nat)
    (h : battery_level_of (battery_voltage_of_adc adc) ≠ BatteryLevel.critical) :
    (engine_init (initial_state t) adc).1.current_buffer_size = 256 ∧
    (engine_init (initial_state t) adc).1.current_buffer_size ≠ 128 ∧
    (engine_init (initial_state t) adc).1.metrics.power_consumption_mw = 0 ∧
    (engine_init (initial_state t) adc).1.metrics.power_consumption_mw ≠ 25 ∧
    (engine_init (initial_state t) adc).1.current_energy_mode = EnergyMode.ultraEco ∧
    (engine_init (initial_state t) adc).2.2 = Effects.silent := by
  have key : ∀ s' : EngineState,
      update_battery_status (initial_state t) adc = (s', Effects.silent) →
      s'.current_energy_mode = EnergyMode.ultraEco →
      engine_init (initial_state t) adc = (s', Effects.silent, Effects.silent) := by
    intro s' hs' hmode
    unfold engine_init
    rw [hs']
    rw [if_neg (by exact Bool.false_ne_true)]
    rw [set_energy_mode_self s' EnergyMode.ultraEco hmode]
  have hu : update_battery_status (initial_state t) adc =
      ({ initial_state t with metrics := { (initial_state t).metrics with
          battery_voltage := battery_voltage_of_adc adc,
          battery_level := battery_level_of (battery_voltage_of_adc adc) } },
        Effects.silent) := by
    unfold update_battery_status
    rw [if_neg h]
    by_cases hl : battery_level_of (battery_voltage_of_adc adc) = BatteryLevel.low
    · rw [if_pos hl]
      exact set_energy_mode_self _ _ rfl
    · rw [if_neg hl]
  have hinit := key _ hu rfl
  rw [hinit]
  refine ⟨rfl, ?_, rfl, ?_, rfl, rfl⟩
  · show (256 : Nat) ≠ 128
    norm_num
  · show (0 : ℚ) ≠ 25
    norm_num

/-- Witness for `engine_init_preserves_ultra_eco_defaults` at a raw ADC
reading of 2400, which classifies as GOOD. -/
theorem engine_init_preserves_ultra_eco_defaults_witness :
    battery_level_of (battery_voltage_of_adc 2400) ≠ BatteryLevel.critical ∧
    (engine_init (initial_state 0) 2400).1.current_buffer_size = 256 ∧
    (engine_init (initial_state 0) 2400).1.metrics.power_consumption_mw = 0 ∧
    (engine_init (initial_state 0) 2400).2.2 = Effects.silent := by
  have hg : battery_level_of (battery_voltage_of_adc 2400) = BatteryLevel.good := by
    norm_num [battery_level_of, battery_voltage_of_adc, BATTERY_LOW_VOLTAGE]
  have h : battery_level_of (battery_voltage_of_adc 2400) ≠ BatteryLevel.critical := by
    rw [hg]; decide
  have hh := engine_init_preserves_ultra_eco_defaults 0 2400 h
  exact ⟨h, hh.1, hh.2.2.1, hh.2.2.2.2.2⟩

/-- Claim C10 (confirmed): `consecutive_silence` is an 8-bit counter
incremented without saturation on every silent preprocessing pass (so it
wraps modulo 256) and reset to 0 by any voiced pass; starting from the
fresh state, after 256 consecutive silent passes it is back at 0, and the
microphone-shutdown condition (`> 10`) and the ULTRA_ECO light-sleep
condition (`> 5`) are both false again at that point. -/
theorem consecutive_silence_wraparound :
    (∀ (s : EngineState) (buf : List Int),
      (preprocess_audio_efficient s buf).metrics.consecutive_silence =
        if voice_detected_now s buf then 0
        else (s.metrics.consecutive_silence + 1) % 256) ∧
    (∀ k : Nat,
      (preprocess_iter silent_buffer (initial_state 0) k).metrics.consecutive_silence =
        k % 256) ∧
    (preprocess_iter silent_buffer (initial_state 0) 256).metrics.consecutive_silence = 0 ∧
    ¬(10 < (preprocess_iter silent_buffer (initial_state 0) 256).metrics.consecutive_silence) ∧
    ¬(5 < (preprocess_iter silent_buffer (initial_state 0) 256).metrics.consecutive_silence) := by
  have hvdn : ∀ k, voice_detected_now
      (preprocess_iter silent_buffer (initial_state 0) k) silent_buffer = false := by
    intro k
    unfold voice_detected_now silent_buffer
    rw [preprocess_iter_buffer_size, energy_of_replicate_zero]
    simp only [decide_eq_false_iff_not]
    norm_num [VOICE_DETECTION_THRESHOLD]
  have hiter : ∀ k,
      (preprocess_iter silent_buffer (initial_state 0) k).metrics.consecutive_silence =
        k % 256 := by
    intro k
    induction k with
    | zero => rfl
    | succ k ih =>
        show (preprocess_audio_efficient
          (preprocess_iter silent_buffer (initial_state 0) k)
          silent_buffer).metrics.consecutive_silence = (k + 1) % 256
        rw [preprocess_consec, hvdn k, if_neg Bool.false_ne_true, ih]
        omega
  refine ⟨fun s buf => preprocess_consec s buf, hiter, ?_, ?_, ?_⟩
  · rw [hiter 256]
  · rw [hiter 256]
    omega
  · rw [hiter 256]
    omega

end TinyMLVoice
